import Mathlib

/-!
Formal model of the episode workflow state machine and the multi-agent
script pipeline of `app.py` (ai-doc-phone-app).

Conventions of the embedding:
* timestamps (`datetime.utcnow().isoformat()`) are abstracted as natural
  numbers; every stamp taken inside one call of an operation uses the same
  `now` parameter, matching the fact that the source takes several wall
  clock readings within microseconds of each other in a single call;
* the Firestore document store is modelled by explicit state passing; the
  external text-generation service and the fallibility of persistence
  writes are supplied as oracles in an environment record;
* Python `None` becomes `Option.none`; Python string truthiness (`if s:`)
  is modelled by testing against the empty string.
-/

namespace DocApp

/-- The five pipeline phases, from `EPISODE_PHASES` in app.py. -/
inductive Phase
  | research
  | archive
  | script
  | voiceover
  | assembly
deriving DecidableEq

/-- Dictionary (insertion) order of `EPISODE_PHASES`. -/
def phaseList : List Phase := [.research, .archive, .script, .voiceover, .assembly]

/-- The `order` field of each entry of `EPISODE_PHASES`. -/
def phaseOrder : Phase → Nat
  | .research => 1
  | .archive => 2
  | .script => 3
  | .voiceover => 4
  | .assembly => 5

/-- `PHASE_STATUSES` from app.py. -/
inductive PhaseStatus
  | pending
  | in_progress
  | review
  | approved
  | rejected
deriving DecidableEq

/-- The per-phase record stored in `workflow['phases'][phase]`
(see `initialize_episode_workflow` in app.py). A review note is a pair
(text, timestamp). -/
structure PhaseState where
  status : PhaseStatus
  startedAt : Option Nat
  completedAt : Option Nat
  reviewNotes : List (String × Nat)
  assignedTo : Option String
deriving DecidableEq

/-- The `workflow['phases']` dictionary: one `PhaseState` per phase key.
`initialize_episode_workflow` populates all five keys, so the map is total. -/
structure PhaseMap where
  research : PhaseState
  archive : PhaseState
  script : PhaseState
  voiceover : PhaseState
  assembly : PhaseState
deriving DecidableEq

def PhaseMap.get (m : PhaseMap) : Phase → PhaseState
  | .research => m.research
  | .archive => m.archive
  | .script => m.script
  | .voiceover => m.voiceover
  | .assembly => m.assembly

def PhaseMap.set (m : PhaseMap) : Phase → PhaseState → PhaseMap
  | .research, ps => { m with research := ps }
  | .archive, ps => { m with archive := ps }
  | .script, ps => { m with script := ps }
  | .voiceover, ps => { m with voiceover := ps }
  | .assembly, ps => { m with assembly := ps }

theorem PhaseMap.get_set_same (m : PhaseMap) (p : Phase) (ps : PhaseState) :
    (m.set p ps).get p = ps := by
  cases p <;> rfl

theorem PhaseMap.get_set_ne (m : PhaseMap) (p q : Phase) (ps : PhaseState)
    (h : p ≠ q) : (m.set p ps).get q = m.get q := by
  cases p <;> cases q <;> first | rfl | exact absurd rfl h

/-- The episode's `workflow` sub-object: `currentPhase` plus the phase map. -/
structure Workflow where
  currentPhase : Phase
  phases : PhaseMap
deriving DecidableEq

/-- `initialize_episode_workflow` from app.py: every phase of order > 1 starts
`pending`, phase 1 starts `in_progress`; then `research.startedAt` is stamped. -/
def initPhaseState (p : Phase) : PhaseState :=
  { status := if phaseOrder p > 1 then .pending else .in_progress,
    startedAt := none, completedAt := none, reviewNotes := [], assignedTo := none }

def initialize_episode_workflow (now : Nat) : Workflow :=
  let m : PhaseMap :=
    { research := initPhaseState .research,
      archive := initPhaseState .archive,
      script := initPhaseState .script,
      voiceover := initPhaseState .voiceover,
      assembly := initPhaseState .assembly }
  { currentPhase := .research,
    phases := m.set .research { m.get .research with startedAt := some now } }

/-- The next-phase lookup inside `update_episode_phase`: the loop over
`EPISODE_PHASES.items()` that breaks at the first entry whose order is the
current order plus one. -/
def nextPhase (p : Phase) : Option Phase :=
  phaseList.find? (fun q => phaseOrder q == phaseOrder p + 1)

/-- The trailing `if notes:` block of `update_episode_phase`: a truthy note
string is appended (with a timestamp) to the phase's `reviewNotes`. -/
def stampNote (ps : PhaseState) (notes : Option String) (now : Nat) : PhaseState :=
  match notes with
  | some t => if t = "" then ps else { ps with reviewNotes := ps.reviewNotes ++ [(t, now)] }
  | none => ps

/-- `update_episode_phase` from app.py (lines 188-220), acting on the
workflow value. The phase is always present in the map (the route layer
rejects unknown phases before this point), so the `phase not in
workflow['phases']` guard cannot fire here. Steps, in source order:
1. write `status` into the phase record;
2. if the new status is `in_progress` and `startedAt` is unset, stamp it;
   otherwise if the new status is `approved`, stamp `completedAt` and, when
   a phase of order+1 exists, make it `currentPhase` and set it
   `in_progress` with a fresh `startedAt`;
3. append the note, if truthy. -/
def update_episode_phase (w : Workflow) (phase : Phase) (status : PhaseStatus)
    (notes : Option String) (now : Nat) : Workflow :=
  let ps := { w.phases.get phase with status := status }
  let w1 : Workflow :=
    match status with
    | .in_progress =>
        if ps.startedAt = none then
          { w with phases := w.phases.set phase { ps with startedAt := some now } }
        else
          { w with phases := w.phases.set phase ps }
    | .approved =>
        let w2 : Workflow := { w with phases := w.phases.set phase { ps with completedAt := some now } }
        match nextPhase phase with
        | some np =>
            { currentPhase := np,
              phases := w2.phases.set np
                { w2.phases.get np with status := .in_progress, startedAt := some now } }
        | none => w2
    | _ => { w with phases := w.phases.set phase ps }
  { w1 with phases := w1.phases.set phase (stampNote (w1.phases.get phase) notes now) }

/-- The progress computation of `get_episode_workflow_status`:
`sum(1 for p in phases.values() if p.status == approved)`. -/
def approvedCount (w : Workflow) : Nat :=
  (phaseList.map (fun p => if (w.phases.get p).status = .approved then 1 else 0)).sum

/-- The result record of `get_episode_workflow_status` (the fields the
workflow logic computes; the echo of static registry data is omitted). -/
structure WorkflowStatus where
  currentPhase : Phase
  progress : ℚ
  completedPhases : Nat
  totalPhases : Nat
deriving DecidableEq

/-- `get_episode_workflow_status` from app.py (lines 223-248):
`progress = (completed_phases / total_phases) * 100` with
`total_phases = len(EPISODE_PHASES)`. -/
def get_episode_workflow_status (w : Workflow) : WorkflowStatus :=
  { currentPhase := w.currentPhase,
    progress := ((approvedCount w : ℚ) / (phaseList.length : ℚ)) * 100,
    completedPhases := approvedCount w,
    totalPhases := phaseList.length }

theorem stampNote_status (ps : PhaseState) (notes : Option String) (now : Nat) :
    (stampNote ps notes now).status = ps.status := by
  unfold stampNote; cases notes with
  | none => rfl
  | some t => by_cases h : t = "" <;> simp [h]

theorem stampNote_startedAt (ps : PhaseState) (notes : Option String) (now : Nat) :
    (stampNote ps notes now).startedAt = ps.startedAt := by
  unfold stampNote; cases notes with
  | none => rfl
  | some t => by_cases h : t = "" <;> simp [h]

theorem stampNote_completedAt (ps : PhaseState) (notes : Option String) (now : Nat) :
    (stampNote ps notes now).completedAt = ps.completedAt := by
  unfold stampNote; cases notes with
  | none => rfl
  | some t => by_cases h : t = "" <;> simp [h]

theorem nextPhase_research : nextPhase .research = some .archive := rfl

theorem nextPhase_archive : nextPhase .archive = some .script := rfl

theorem nextPhase_script : nextPhase .script = some .voiceover := rfl

theorem nextPhase_voiceover : nextPhase .voiceover = some .assembly := rfl

theorem nextPhase_assembly : nextPhase .assembly = none := rfl

/-- C1: for every workflow and phase, setting the phase's status to
`approved` stamps its completion timestamp; if a phase with the next order
exists it becomes `in_progress` with a fresh start timestamp and becomes
the current phase, and otherwise `currentPhase` is unchanged. -/
theorem approve_advances_phase (w : Workflow) (p : Phase) (notes : Option String) (now : Nat) :
    ((update_episode_phase w p .approved notes now).phases.get p).completedAt = some now
    ∧ (match nextPhase p with
       | some np =>
          ((update_episode_phase w p .approved notes now).phases.get np).status = .in_progress
          ∧ ((update_episode_phase w p .approved notes now).phases.get np).startedAt = some now
          ∧ (update_episode_phase w p .approved notes now).currentPhase = np
       | none => (update_episode_phase w p .approved notes now).currentPhase = w.currentPhase) := by
  cases p <;>
    simp [update_episode_phase, nextPhase_research, nextPhase_archive, nextPhase_script,
      nextPhase_voiceover, nextPhase_assembly, PhaseMap.get, PhaseMap.set,
      stampNote_status, stampNote_startedAt, stampNote_completedAt]

theorem nextPhase_ne_self (p q : Phase) (h : nextPhase p = some q) : q ≠ p := by
  cases p <;> cases q <;> simp_all [nextPhase_research, nextPhase_archive,
    nextPhase_script, nextPhase_voiceover, nextPhase_assembly]

/-- Field-level characterization of `update_episode_phase`: resulting status. -/
theorem upd_status (w : Workflow) (p q : Phase) (s : PhaseStatus) (notes : Option String) (now : Nat) :
    ((update_episode_phase w p s notes now).phases.get q).status =
      if q = p then s
      else if s = .approved ∧ nextPhase p = some q then .in_progress
      else (w.phases.get q).status := by
  cases s <;> cases p <;> cases q <;>
    simp [update_episode_phase, PhaseMap.get, PhaseMap.set, stampNote_status,
      nextPhase_research, nextPhase_archive, nextPhase_script, nextPhase_voiceover,
      nextPhase_assembly] <;>
    split_ifs <;> simp_all

/-- Field-level characterization of `update_episode_phase`: resulting start stamp. -/
theorem upd_startedAt (w : Workflow) (p q : Phase) (s : PhaseStatus) (notes : Option String) (now : Nat) :
    ((update_episode_phase w p s notes now).phases.get q).startedAt =
      if s = .approved ∧ nextPhase p = some q then some now
      else if q = p ∧ s = .in_progress ∧ (w.phases.get q).startedAt = none then some now
      else (w.phases.get q).startedAt := by
  cases s <;> cases p <;> cases q <;>
    simp [update_episode_phase, PhaseMap.get, PhaseMap.set, stampNote_startedAt,
      nextPhase_research, nextPhase_archive, nextPhase_script, nextPhase_voiceover,
      nextPhase_assembly] <;>
    split_ifs <;> simp_all

/-- Field-level characterization of `update_episode_phase`: resulting completion stamp. -/
theorem upd_completedAt (w : Workflow) (p q : Phase) (s : PhaseStatus) (notes : Option String) (now : Nat) :
    ((update_episode_phase w p s notes now).phases.get q).completedAt =
      if q = p ∧ s = .approved then some now
      else (w.phases.get q).completedAt := by
  cases s <;> cases p <;> cases q <;>
    simp [update_episode_phase, PhaseMap.get, PhaseMap.set, stampNote_completedAt,
      nextPhase_research, nextPhase_archive, nextPhase_script, nextPhase_voiceover,
      nextPhase_assembly] <;>
    split_ifs <;> simp_all

/-- Field-level characterization of `update_episode_phase`: resulting note log. -/
theorem upd_reviewNotes (w : Workflow) (p q : Phase) (s : PhaseStatus) (notes : Option String) (now : Nat) :
    ((update_episode_phase w p s notes now).phases.get q).reviewNotes =
      if q = p then
        (w.phases.get q).reviewNotes ++
          (match notes with
           | some t => if t = "" then [] else [(t, now)]
           | none => [])
      else (w.phases.get q).reviewNotes := by
  cases notes <;> cases s <;> cases p <;> cases q <;>
    simp [update_episode_phase, PhaseMap.get, PhaseMap.set, stampNote,
      nextPhase_research, nextPhase_archive, nextPhase_script, nextPhase_voiceover,
      nextPhase_assembly] <;>
    split_ifs <;> simp_all

/-- Field-level characterization of `update_episode_phase`: resulting assignee. -/
theorem upd_assignedTo (w : Workflow) (p q : Phase) (s : PhaseStatus) (notes : Option String) (now : Nat) :
    ((update_episode_phase w p s notes now).phases.get q).assignedTo =
      (w.phases.get q).assignedTo := by
  cases notes <;> cases s <;> cases p <;> cases q <;>
    simp [update_episode_phase, PhaseMap.get, PhaseMap.set, stampNote,
      nextPhase_research, nextPhase_archive, nextPhase_script, nextPhase_voiceover,
      nextPhase_assembly] <;>
    split_ifs <;> simp_all

/-- Field-level characterization of `update_episode_phase`: resulting current phase. -/
theorem upd_currentPhase (w : Workflow) (p : Phase) (s : PhaseStatus) (notes : Option String) (now : Nat) :
    (update_episode_phase w p s notes now).currentPhase =
      if s = .approved then (nextPhase p).getD w.currentPhase else w.currentPhase := by
  cases s <;> cases p <;>
    simp [update_episode_phase, PhaseMap.get, PhaseMap.set,
      nextPhase_research, nextPhase_archive, nextPhase_script, nextPhase_voiceover,
      nextPhase_assembly] <;>
    split_ifs <;> simp_all

/-- A fresh workflow (initialized at time 0). -/
def wfInit : Workflow := initialize_episode_workflow 0

/-- `wfInit` after approving `research` at time 1. -/
def wfResearchApproved : Workflow := update_episode_phase wfInit .research .approved none 1

/-- `wfResearchApproved` after approving `archive` at time 2. -/
def wfArchiveApproved : Workflow := update_episode_phase wfResearchApproved .archive .approved none 2

/-- `wfArchiveApproved` after approving `research` a second time, at time 3.
The approval branch unconditionally resets the next phase (`archive`) to
`in_progress`, knocking it out of `approved`. -/
def wfReApproveResearch : Workflow := update_episode_phase wfArchiveApproved .research .approved none 3

/-- C7 counterexample: after approving `research` then `archive`, progress is
40; re-approving `research` resets `archive` to `in_progress` and progress
drops to 20, so progress is not monotonically non-decreasing across a
sequence of approvals. -/
theorem progress_decreases_on_reapproval :
    (get_episode_workflow_status wfArchiveApproved).progress = 40
    ∧ (get_episode_workflow_status wfReApproveResearch).progress = 20 := by
  have h1 : approvedCount wfArchiveApproved = 2 := by decide
  have h2 : approvedCount wfReApproveResearch = 1 := by decide
  constructor
  · simp [get_episode_workflow_status, h1, phaseList]
    norm_num
  · simp [get_episode_workflow_status, h2, phaseList]
    norm_num

theorem approvedCount_le_approve (w : Workflow) (p : Phase) (notes : Option String) (now : Nat)
    (h : (w.phases.get p).status ≠ .approved) :
    approvedCount w ≤ approvedCount (update_episode_phase w p .approved notes now) := by
  cases p <;>
    simp only [approvedCount, phaseList, update_episode_phase, nextPhase_research,
      nextPhase_archive, nextPhase_script, nextPhase_voiceover, nextPhase_assembly,
      PhaseMap.get, PhaseMap.set, stampNote_status, List.map, List.sum_cons,
      List.sum_nil] at h ⊢ <;>
    split_ifs <;> simp_all

/-- C7 (amended): `getStatus` reports progress equal to
`100 * approvedCount / totalPhases`, and progress is monotonically
non-decreasing across approvals of phases that are not already approved
(re-approving an already-approved phase can decrease it, see the
counterexample). -/
theorem progress_formula_and_monotone (w : Workflow) (p : Phase) (notes : Option String) (now : Nat)
    (h : (w.phases.get p).status ≠ .approved) :
    (get_episode_workflow_status w).progress
        = 100 * (approvedCount w : ℚ) / ((get_episode_workflow_status w).totalPhases : ℚ)
    ∧ (get_episode_workflow_status w).progress
        ≤ (get_episode_workflow_status (update_episode_phase w p .approved notes now)).progress := by
  have hc := approvedCount_le_approve w p notes now h
  have hq : ((approvedCount w : ℚ)) ≤ (approvedCount (update_episode_phase w p .approved notes now) : ℚ) := by
    exact_mod_cast hc
  constructor
  · simp only [get_episode_workflow_status, phaseList, List.length]
    ring
  · simp only [get_episode_workflow_status, phaseList, List.length]
    gcongr

/-- Witness for the amended C7 theorem at a concrete input: the fresh
workflow with its `research` phase (status `in_progress`, not approved). -/
theorem progress_formula_and_monotone_witness :
    ((wfInit.phases.get .research).status ≠ .approved)
    ∧ ((get_episode_workflow_status wfInit).progress
          = 100 * (approvedCount wfInit : ℚ) / ((get_episode_workflow_status wfInit).totalPhases : ℚ)
       ∧ (get_episode_workflow_status wfInit).progress
          ≤ (get_episode_workflow_status (update_episode_phase wfInit .research .approved none 1)).progress) :=
  ⟨by decide, progress_formula_and_monotone wfInit .research none 1 (by decide)⟩

/-- `wfResearchApproved` after an identical second `(research, approved)` call
at time 2. -/
def wfResearchApprovedTwice : Workflow :=
  update_episode_phase wfResearchApproved .research .approved none 2

/-- C8 counterexample: repeating the identical `(research, approved)` call is
not stable outside the note log — the second call re-stamps the research
phase's completion timestamp (1 becomes 2) and the archive phase's start
timestamp (1 becomes 2). -/
theorem setPhaseStatus_not_idempotent :
    ((wfResearchApprovedTwice.phases.get .research).completedAt = some 2)
    ∧ ((wfResearchApproved.phases.get .research).completedAt = some 1)
    ∧ ((wfResearchApprovedTwice.phases.get .archive).startedAt = some 2)
    ∧ ((wfResearchApproved.phases.get .archive).startedAt = some 1) := by
  decide

/-- C8 (amended): repeating an identical `(phase, status)` call leaves every
phase's status, the current phase, every assignee, every other phase's note
log and the phase's own start timestamp stable, and appends one further note
entry per call; the only other effect of the repeated call is that, when the
status is `approved`, the phase's completion timestamp and the next phase's
start timestamp are re-stamped with the later time. -/
theorem setPhaseStatus_idempotent_except_restamp (w : Workflow) (p : Phase) (s : PhaseStatus)
    (notes : Option String) (n1 n2 : Nat) :
    ((update_episode_phase (update_episode_phase w p s notes n1) p s notes n2).currentPhase
        = (update_episode_phase w p s notes n1).currentPhase)
    ∧ (∀ q, ((update_episode_phase (update_episode_phase w p s notes n1) p s notes n2).phases.get q).status
        = ((update_episode_phase w p s notes n1).phases.get q).status)
    ∧ (∀ q, ((update_episode_phase (update_episode_phase w p s notes n1) p s notes n2).phases.get q).assignedTo
        = ((update_episode_phase w p s notes n1).phases.get q).assignedTo)
    ∧ (∀ q, ((update_episode_phase (update_episode_phase w p s notes n1) p s notes n2).phases.get q).startedAt
        = if s = .approved ∧ nextPhase p = some q then some n2
          else ((update_episode_phase w p s notes n1).phases.get q).startedAt)
    ∧ (∀ q, ((update_episode_phase (update_episode_phase w p s notes n1) p s notes n2).phases.get q).completedAt
        = if q = p ∧ s = .approved then some n2
          else ((update_episode_phase w p s notes n1).phases.get q).completedAt)
    ∧ (∀ q, q ≠ p → ((update_episode_phase (update_episode_phase w p s notes n1) p s notes n2).phases.get q).reviewNotes
        = ((update_episode_phase w p s notes n1).phases.get q).reviewNotes)
    ∧ (((update_episode_phase (update_episode_phase w p s notes n1) p s notes n2).phases.get p).reviewNotes
        = ((update_episode_phase w p s notes n1).phases.get p).reviewNotes ++
            (match notes with
             | some t => if t = "" then [] else [(t, n2)]
             | none => [])) := by
  refine ⟨?_, ?_, ?_, ?_, ?_, ?_, ?_⟩
  · simp only [upd_currentPhase]
    split_ifs with h1
    · cases hn : nextPhase p <;> simp [hn]
    · rfl
  · intro q
    simp only [upd_status]
    split_ifs <;> simp_all
  · intro q
    simp only [upd_assignedTo]
  · intro q
    simp only [upd_startedAt]
    split_ifs <;> simp_all
  · intro q
    simp only [upd_completedAt]
  · intro q hq
    simp only [upd_reviewNotes]
    first
    | rfl
    | simp [hq]
  · simp only [upd_reviewNotes]
    simp

/-- Witness for the amended C8 theorem at a concrete input (the fresh
workflow, approving `research` at times 1 and 2; the `q ≠ p` hypotheses of
the inner conjunct are dischargeable, e.g. at `q = archive`). -/
theorem setPhaseStatus_idempotent_except_restamp_witness :
    ((update_episode_phase (update_episode_phase wfInit .research .approved none 1) .research .approved none 2).currentPhase
        = (update_episode_phase wfInit .research .approved none 1).currentPhase)
    ∧ (((update_episode_phase (update_episode_phase wfInit .research .approved none 1) .research .approved none 2).phases.get .archive).reviewNotes
        = ((update_episode_phase wfInit .research .approved none 1).phases.get .archive).reviewNotes) := by
  have h := setPhaseStatus_idempotent_except_restamp wfInit .research .approved none 1 2
  exact ⟨h.1, h.2.2.2.2.2.1 .archive (by decide)⟩

/-- The workflow states reachable through the state machine's operations:
the initial workflow, and anything produced from a reachable state by
`update_episode_phase` (the only mutator of the workflow sub-object). -/
inductive Reachable : Workflow → Prop
  | init (now : Nat) : Reachable (initialize_episode_workflow now)
  | step (w : Workflow) (p : Phase) (s : PhaseStatus) (notes : Option String) (now : Nat) :
      Reachable w → Reachable (update_episode_phase w p s notes now)

/-- `wfResearchApproved` after the research phase is subsequently set to
`rejected` at time 2 (as the request-revision route does for the current
phase). -/
def wfResearchRejected : Workflow :=
  update_episode_phase wfResearchApproved .research .rejected none 2

/-- C9 counterexample: a reachable state in which the research phase has
status `rejected` yet retains its completion stamp, so `completedAt` being
set does not imply status `approved`. -/
theorem completedAt_not_iff_approved :
    Reachable wfResearchRejected
    ∧ (wfResearchRejected.phases.get .research).status = .rejected
    ∧ (wfResearchRejected.phases.get .research).completedAt = some 1 := by
  refine ⟨?_, by decide, by decide⟩
  exact Reachable.step _ _ _ _ _ (Reachable.step _ _ _ _ _ (Reachable.init 0))

/-- C9 (amended): on every reachable workflow state, a phase with status
`approved` has its completion stamp set, and a phase with status
`in_progress` has its start stamp set. (The converse directions fail: a
stamp survives later status changes, a repeat approval re-stamps, and a
phase driven from `pending` directly to `review`/`approved`/`rejected`
receives no start stamp.) -/
theorem phase_stamp_invariant (w : Workflow) (h : Reachable w) :
    ∀ p, ((w.phases.get p).status = .approved → (w.phases.get p).completedAt ≠ none)
       ∧ ((w.phases.get p).status = .in_progress → (w.phases.get p).startedAt ≠ none) := by
  induction h with
  | init now =>
    intro p
    cases p <;>
      simp [initialize_episode_workflow, initPhaseState, PhaseMap.get, PhaseMap.set, phaseOrder]
  | step w p s notes now hw ih =>
    intro q
    have hq1 := (ih q).1
    have hq2 := (ih q).2
    constructor
    · intro hst
      rw [upd_status] at hst
      rw [upd_completedAt]
      split_ifs at hst ⊢ <;> simp_all
    · intro hst
      rw [upd_status] at hst
      rw [upd_startedAt]
      split_ifs at hst ⊢ <;> simp_all

/-- Witness for the amended C9 theorem: the invariant applied to the fresh
workflow (reachable by construction) at the research phase, whose status is
`in_progress`. -/
theorem phase_stamp_invariant_witness :
    Reachable wfInit ∧ (wfInit.phases.get .research).startedAt ≠ none :=
  ⟨Reachable.init 0, (phase_stamp_invariant wfInit (Reachable.init 0) .research).2 (by decide)⟩

/-- The keys of `AGENT_TYPES` in app.py. -/
inductive AgentType
  | research_specialist
  | archive_specialist
  | interview_producer
  | script_writer
  | fact_checker
deriving DecidableEq

/-- Agent task statuses as written by `create_agent_task`/`update_agent_task`. -/
inductive TaskStatus
  | pending
  | in_progress
  | completed
  | failed
deriving DecidableEq

/-- The `results` dictionary joining the three fan-out outputs in
`ai_script_swarm` (one entry per fan-out agent). -/
structure FanoutResults where
  research_specialist : String
  archive_specialist : String
  interview_producer : String
deriving DecidableEq

/-- The `inputData` payloads built by `ai_script_swarm`: each fan-out task
receives the episode brief and a context string truncated to 10000
characters; the script-writer task receives the joined fan-out results; the
fact-checker task receives the synthesized script. -/
inductive TaskInput
  | fanoutCtx (episodeBrief context : String)
  | agentInputs (results : FanoutResults)
  | verifyScript (script : String)
deriving DecidableEq

/-- An agent task document: the lifecycle-relevant fields set by
`create_agent_task`. The output dict (`{'analysis': …}`, `{'script': …}`,
`{'verification': …}`) is modelled by its single payload string. -/
structure AgentTask where
  agentType : AgentType
  taskType : String
  status : TaskStatus
  inputData : TaskInput
  outputData : Option String
  startedAt : Option Nat
  completedAt : Option Nat
  error : Option String
deriving DecidableEq

/-- `create_agent_task` from app.py (lines 307-321): a fresh `pending` task
with empty output, stamps and error. -/
def create_agent_task (a : AgentType) (taskType : String) (input : TaskInput) : AgentTask :=
  { agentType := a, taskType := taskType, status := .pending, inputData := input,
    outputData := none, startedAt := none, completedAt := none, error := none }

/-- `update_agent_task` from app.py (lines 325-339), acting on the task
record: the requested status is written unconditionally; `in_progress`
stamps the start time and `completed`/`failed` stamp the completion time; a
passed output payload is stored (the output dict is non-empty, hence truthy,
whenever the source passes one); a passed error message is stored when
truthy. No transition is validated anywhere. -/
def update_agent_task (t : AgentTask) (status : TaskStatus)
    (output : Option String) (error : Option String) (now : Nat) : AgentTask :=
  let t1 := { t with status := status }
  let t2 :=
    match status with
    | .in_progress => { t1 with startedAt := some now }
    | .completed => { t1 with completedAt := some now }
    | .failed => { t1 with completedAt := some now }
    | .pending => t1
  let t3 :=
    match output with
    | some o => { t2 with outputData := some o }
    | none => t2
  match error with
  | some e => if e = "" then t3 else { t3 with error := some e }
  | none => t3

/-- A freshly created (hence `pending`) fan-out task. -/
def pendingTask : AgentTask :=
  create_agent_task .research_specialist "analyze_research" (.fanoutCtx "" "")

/-- C3 counterexample: invoking complete on a `pending` task neither fails
with `InvalidTransition` nor leaves the task unchanged — `update_agent_task`
transitions `pending → completed` directly and stamps the completion time. -/
theorem complete_on_pending_not_rejected :
    pendingTask.status = .pending
    ∧ (update_agent_task pendingTask .completed (some "out") none 5).status = .completed
    ∧ (update_agent_task pendingTask .completed (some "out") none 5).completedAt = some 5
    ∧ update_agent_task pendingTask .completed (some "out") none 5 ≠ pendingTask := by
  decide

/-- C3 (amended): `update_agent_task` performs no transition validation and
cannot fail: for every task and requested status it writes the status
unconditionally, stamps the start time exactly when the new status is
`in_progress`, and stamps the completion time exactly when the new status is
`completed` or `failed`. -/
theorem update_agent_task_unconditional (t : AgentTask) (s : TaskStatus)
    (o e : Option String) (now : Nat) :
    (update_agent_task t s o e now).status = s
    ∧ (update_agent_task t s o e now).startedAt
        = (if s = .in_progress then some now else t.startedAt)
    ∧ (update_agent_task t s o e now).completedAt
        = (if s = .completed ∨ s = .failed then some now else t.completedAt) := by
  cases s <;> cases o <;> cases e <;>
    simp [update_agent_task] <;>
    split_ifs <;> simp

/-- The `try`/`except` body of `generate_ai_response`, as a function of the
outcome of the underlying `model.generate_content` call: success text passes
through, an exception is converted into the normal string
`"AI error: <message>"`. -/
def aiText : Except String String → String
  | .ok t => t
  | .error e => "AI error: " ++ e

/-- `generate_ai_response` from app.py (lines 392-399): the full prompt is
the system prompt (when truthy) joined to the prompt with a blank line, and
the call never raises — any exception of the generation call becomes the
`"AI error: …"` result. -/
def generate_ai_response (generate_content : String → Except String String)
    (prompt system_prompt : String) : String :=
  aiText (generate_content
    (if system_prompt = "" then prompt else system_prompt ++ "\n\n" ++ prompt))

/-- The five per-agent raw outputs persisted on a script version
(`agentOutputs` of the `create_doc('script_versions', …)` call). -/
structure AgentOutputs where
  research_specialist : String
  archive_specialist : String
  interview_producer : String
  script_writer : String
  fact_checker : String
deriving DecidableEq

/-- A script version document as created by `ai_script_swarm`. -/
structure ScriptVersion where
  versionNumber : Nat
  versionType : String
  content : String
  factCheck : String
  agentOutputs : AgentOutputs
  isLocked : Bool
deriving DecidableEq

/-- Outcomes of the external calls made during one `ai_script_swarm` run.
`gen a` abstracts the (single) `model.generate_content` call made on behalf
of agent `a` — the prompt fed to it is opaque text for the external model;
the `…Exn` fields give, per persistence call site, the exception that write
raises (`none` = the write succeeds), matching Python exception propagation
through the function's `try`/`except` structure: `createExn` for
`create_agent_task`, `runExn` for `update_agent_task(…, 'in_progress')`,
`doneExn` for `update_agent_task(…, 'completed', …)`, `failExn` for
`update_agent_task(…, 'failed', …)`, `versionExn` for the
`create_doc('script_versions', …)` write. -/
structure SwarmEnv where
  gen : AgentType → Except String String
  createExn : AgentType → Option String
  runExn : AgentType → Option String
  doneExn : AgentType → Option String
  failExn : AgentType → Option String
  versionExn : Option String

/-- The persisted documents touched by one `ai_script_swarm` run: the five
agent tasks (in their last successfully written state, `none` = never
created) and the episode's script-version list. -/
structure SwarmState where
  researchTask : Option AgentTask := none
  archiveTask : Option AgentTask := none
  interviewTask : Option AgentTask := none
  scriptTask : Option AgentTask := none
  factTask : Option AgentTask := none
  versions : List ScriptVersion := []
deriving DecidableEq

/-- The success payload of the route's JSON response: the script text, the
fact-check text and the joined per-agent outputs (`results`). -/
structure SwarmResponse where
  script : String
  factCheck : String
  agentOutputs : FanoutResults
deriving DecidableEq

/-- One iteration of the fan-out loop of `ai_script_swarm` for task `t` of
agent `a`: mark the task running, call the generation service through
`generate_ai_response`'s never-raising wrapper (abstracted by `env.gen a`),
then mark the task completed with the response; if marking completed raises,
the `except` clause marks the task failed and substitutes the placeholder
`"Error: <message>"` into the join. An exception raised by the
`in_progress` or `failed` update escapes the loop (second component
`.error`); the first component is the task's last persisted state. -/
def runFanoutAgent (env : SwarmEnv) (a : AgentType) (t : AgentTask) (now : Nat) :
    AgentTask × Except String String :=
  match env.runExn a with
  | some e => (t, .error e)
  | none =>
    let t1 := update_agent_task t .in_progress none none now
    let response := aiText (env.gen a)
    match env.doneExn a with
    | none => (update_agent_task t1 .completed (some response) none now, .ok response)
    | some e =>
      match env.failExn a with
      | some e2 => (t1, .error e2)
      | none => (update_agent_task t1 .failed none (some e) now, .ok ("Error: " ++ e))

/-- The orchestration core of `ai_script_swarm` from app.py (lines
3221-3437). `brief` is the episode brief and `rctx`/`actx`/`ictx` are the
research, archive and interview context strings assembled from the store;
`vs0` is the episode's pre-existing script-version list. The function
follows the source in order: create the three fan-out tasks, drive each
through the generation service with graceful per-task degradation, join the
results, drive the script-writer task, then (inside the same protected
block) drive the fact-checker task and persist one script version with
`versionNumber` 1 and type `V1_initial`. The second component is the route's
response; `.error` is the JSON error path taken when an exception reaches a
route-level `except`. -/
def ai_script_swarm (env : SwarmEnv) (brief rctx actx ictx : String)
    (vs0 : List ScriptVersion) (now : Nat) : SwarmState × Except String SwarmResponse :=
  match env.createExn .research_specialist with
  | some e => ({ versions := vs0 }, .error e)
  | none =>
  let t1 := create_agent_task .research_specialist "analyze_research"
      (.fanoutCtx brief (rctx.take 10000))
  match env.createExn .archive_specialist with
  | some e => ({ researchTask := some t1, versions := vs0 }, .error e)
  | none =>
  let t2 := create_agent_task .archive_specialist "match_archive"
      (.fanoutCtx brief (actx.take 10000))
  match env.createExn .interview_producer with
  | some e => ({ researchTask := some t1, archiveTask := some t2, versions := vs0 }, .error e)
  | none =>
  let t3 := create_agent_task .interview_producer "extract_soundbites"
      (.fanoutCtx brief (ictx.take 10000))
  match runFanoutAgent env .research_specialist t1 now with
  | (u1, .error e) =>
      ({ researchTask := some u1, archiveTask := some t2, interviewTask := some t3,
         versions := vs0 }, .error e)
  | (u1, .ok r1) =>
  match runFanoutAgent env .archive_specialist t2 now with
  | (u2, .error e) =>
      ({ researchTask := some u1, archiveTask := some u2, interviewTask := some t3,
         versions := vs0 }, .error e)
  | (u2, .ok r2) =>
  match runFanoutAgent env .interview_producer t3 now with
  | (u3, .error e) =>
      ({ researchTask := some u1, archiveTask := some u2, interviewTask := some u3,
         versions := vs0 }, .error e)
  | (u3, .ok r3) =>
  let results : FanoutResults :=
    { research_specialist := r1, archive_specialist := r2, interview_producer := r3 }
  match env.createExn .script_writer with
  | some e =>
      ({ researchTask := some u1, archiveTask := some u2, interviewTask := some u3,
         versions := vs0 }, .error e)
  | none =>
  let st0 := create_agent_task .script_writer "generate_script" (.agentInputs results)
  match env.runExn .script_writer with
  | some e =>
      ({ researchTask := some u1, archiveTask := some u2, interviewTask := some u3,
         scriptTask := some st0, versions := vs0 }, .error e)
  | none =>
  let st1 := update_agent_task st0 .in_progress none none now
  let script_response := aiText (env.gen .script_writer)
  match env.doneExn .script_writer with
  | some e =>
      ({ researchTask := some u1, archiveTask := some u2, interviewTask := some u3,
         scriptTask := some st1, versions := vs0 }, .error e)
  | none =>
  let st2 := update_agent_task st1 .completed (some script_response) none now
  match env.createExn .fact_checker with
  | some e =>
      ({ researchTask := some u1, archiveTask := some u2, interviewTask := some u3,
         scriptTask := some st2, versions := vs0 }, .error e)
  | none =>
  let ft0 := create_agent_task .fact_checker "verify_script" (.verifyScript script_response)
  match env.runExn .fact_checker with
  | some e =>
      ({ researchTask := some u1, archiveTask := some u2, interviewTask := some u3,
         scriptTask := some st2, factTask := some ft0, versions := vs0 }, .error e)
  | none =>
  let ft1 := update_agent_task ft0 .in_progress none none now
  let fact_response := aiText (env.gen .fact_checker)
  match env.doneExn .fact_checker with
  | some e =>
      ({ researchTask := some u1, archiveTask := some u2, interviewTask := some u3,
         scriptTask := some st2, factTask := some ft1, versions := vs0 }, .error e)
  | none =>
  let ft2 := update_agent_task ft1 .completed (some fact_response) none now
  match env.versionExn with
  | some e =>
      ({ researchTask := some u1, archiveTask := some u2, interviewTask := some u3,
         scriptTask := some st2, factTask := some ft2, versions := vs0 }, .error e)
  | none =>
  let sv : ScriptVersion :=
    { versionNumber := 1, versionType := "V1_initial",
      content := script_response, factCheck := fact_response,
      agentOutputs :=
        { research_specialist := r1, archive_specialist := r2, interview_producer := r3,
          script_writer := script_response, fact_checker := fact_response },
      isLocked := false }
  ({ researchTask := some u1, archiveTask := some u2, interviewTask := some u3,
     scriptTask := some st2, factTask := some ft2, versions := vs0 ++ [sv] },
   .ok { script := script_response, factCheck := fact_response, agentOutputs := results })

/-- An environment in which every generation call returns "stub" and every
persistence write succeeds. -/
def envAllOk : SwarmEnv :=
  { gen := fun _ => .ok "stub", createExn := fun _ => none, runExn := fun _ => none,
    doneExn := fun _ => none, failExn := fun _ => none, versionExn := none }

/-- A pre-existing script version, as an earlier successful pipeline run
leaves behind. -/
def existingVersion : ScriptVersion :=
  { versionNumber := 1, versionType := "V1_initial", content := "old",
    factCheck := "old fc",
    agentOutputs :=
      { research_specialist := "", archive_specialist := "", interview_producer := "",
        script_writer := "old", fact_checker := "old fc" },
    isLocked := false }

/-- C2 counterexample: with one existing script version, a successful
pipeline run persists a second version numbered 1 again — not the
existing-version count plus one (which would be 2) — so across runs the
numbers are not strictly increasing from 1 without gaps. -/
theorem swarm_version_number_not_count_plus_one :
    ((ai_script_swarm envAllOk "b" "" "" "" [existingVersion] 0).1.versions.map
        ScriptVersion.versionNumber) = [1, 1] := by
  decide

/-- C2 (amended): `ai_script_swarm` hardcodes the version number — every
script version a pipeline run appends carries `versionNumber` 1 and type
`V1_initial` no matter how many versions the episode already has (the
count-plus-one numbering exists only in the separate manual
create-script-version route). -/
theorem swarm_version_always_number_one (env : SwarmEnv) (brief rctx actx ictx : String)
    (vs0 : List ScriptVersion) (now : Nat) (v : ScriptVersion)
    (hv : v ∈ (ai_script_swarm env brief rctx actx ictx vs0 now).1.versions)
    (hnew : v ∉ vs0) :
    v.versionNumber = 1 ∧ v.versionType = "V1_initial" := by
  simp only [ai_script_swarm] at hv
  repeat' split at hv
  all_goals simp_all

/-- The script version produced by the all-ok environment on empty inputs. -/
def stubVersion : ScriptVersion :=
  { versionNumber := 1, versionType := "V1_initial", content := "stub",
    factCheck := "stub",
    agentOutputs :=
      { research_specialist := "stub", archive_specialist := "stub",
        interview_producer := "stub", script_writer := "stub", fact_checker := "stub" },
    isLocked := false }

/-- Witness for the amended C2 theorem: the version appended by an all-ok
run over an empty version list is new, and its number is 1. -/
theorem swarm_version_always_number_one_witness :
    (stubVersion ∈ (ai_script_swarm envAllOk "b" "" "" "" [] 0).1.versions)
    ∧ (stubVersion ∉ ([] : List ScriptVersion))
    ∧ (stubVersion.versionNumber = 1 ∧ stubVersion.versionType = "V1_initial") :=
  ⟨by decide, by decide,
    swarm_version_always_number_one envAllOk "b" "" "" "" [] 0 stubVersion
      (by decide) (by decide)⟩

/-- C4: when the synthesis stage fails — one of its effectful steps
(creating the script-writer task, marking it running, or marking it
completed) raises — the whole run fails: the route reports the error and no
script version is persisted. (A generation-service failure cannot fail this
stage, because `generate_ai_response` swallows it; see the C10 theorem.) -/
theorem synthesis_failure_aborts (env : SwarmEnv) (brief rctx actx ictx : String)
    (vs0 : List ScriptVersion) (now : Nat)
    (h : env.createExn .script_writer ≠ none ∨ env.runExn .script_writer ≠ none
         ∨ env.doneExn .script_writer ≠ none) :
    (ai_script_swarm env brief rctx actx ictx vs0 now).1.versions = vs0
    ∧ ∃ e, (ai_script_swarm env brief rctx actx ictx vs0 now).2 = .error e := by
  simp only [ai_script_swarm]
  repeat' split
  all_goals first
    | exact ⟨rfl, _, rfl⟩
    | simp_all

/-- Environment in which only the write marking the script-writer task
completed raises. -/
def envSynthFail : SwarmEnv :=
  { gen := fun _ => .ok "stub", createExn := fun _ => none, runExn := fun _ => none,
    doneExn := fun a => if a = .script_writer then some "db down" else none,
    failExn := fun _ => none, versionExn := none }

/-- Witness for the C4 theorem: with the script-writer completed-write
raising, the run errors and persists nothing. -/
theorem synthesis_failure_aborts_witness :
    (envSynthFail.createExn .script_writer ≠ none ∨ envSynthFail.runExn .script_writer ≠ none
      ∨ envSynthFail.doneExn .script_writer ≠ none)
    ∧ ((ai_script_swarm envSynthFail "b" "" "" "" [] 0).1.versions = []
       ∧ ∃ e, (ai_script_swarm envSynthFail "b" "" "" "" [] 0).2 = .error e) :=
  ⟨by decide, synthesis_failure_aborts envSynthFail "b" "" "" "" [] 0 (by decide)⟩

/-- Environment in which only the write marking the fact-checker task
completed raises. -/
def envVerifyFail : SwarmEnv :=
  { gen := fun _ => .ok "stub", createExn := fun _ => none, runExn := fun _ => none,
    doneExn := fun a => if a = .fact_checker then some "db down" else none,
    failExn := fun _ => none, versionExn := none }

/-- C5 counterexample: a run in which synthesis succeeds (the script-writer
task ends `completed`) but the verification stage fails persists NO script
version at all and the route reports the error — the script is not saved
with an empty fact-check annotation, contrary to the claim. -/
theorem verification_failure_discards_script :
    (ai_script_swarm envVerifyFail "b" "" "" "" [] 0).1.versions = []
    ∧ (ai_script_swarm envVerifyFail "b" "" "" "" [] 0).2 = .error "db down"
    ∧ ((ai_script_swarm envVerifyFail "b" "" "" "" [] 0).1.scriptTask.map AgentTask.status)
        = some .completed :=
  ⟨rfl, rfl, rfl⟩

/-- C5 (amended): verification is not advisory in the code — it runs inside
the same protected block as persistence, so a verification-stage failure
(one of its effectful steps raising) aborts the run even though synthesis
succeeded: the error is reported and no script version is persisted. (A
generation-service failure during verification is instead swallowed and its
"AI error: …" text is stored as the fact-check annotation.) -/
theorem verification_failure_aborts (env : SwarmEnv) (brief rctx actx ictx : String)
    (vs0 : List ScriptVersion) (now : Nat)
    (h : env.createExn .fact_checker ≠ none ∨ env.runExn .fact_checker ≠ none
         ∨ env.doneExn .fact_checker ≠ none) :
    (ai_script_swarm env brief rctx actx ictx vs0 now).1.versions = vs0
    ∧ ∃ e, (ai_script_swarm env brief rctx actx ictx vs0 now).2 = .error e := by
  simp only [ai_script_swarm]
  repeat' split
  all_goals first
    | exact ⟨rfl, _, rfl⟩
    | simp_all

/-- Witness for the amended C5 theorem: with the fact-checker
completed-write raising, the run errors and persists nothing. -/
theorem verification_failure_aborts_witness :
    (envVerifyFail.createExn .fact_checker ≠ none ∨ envVerifyFail.runExn .fact_checker ≠ none
      ∨ envVerifyFail.doneExn .fact_checker ≠ none)
    ∧ ((ai_script_swarm envVerifyFail "b2" "" "" "" [] 0).1.versions = []
       ∧ ∃ e, (ai_script_swarm envVerifyFail "b2" "" "" "" [] 0).2 = .error e) :=
  ⟨by decide, verification_failure_aborts envVerifyFail "b2" "" "" "" [] 0 (by decide)⟩

/-- C6: when some (but not all) of the three fan-out tasks fail while the
rest of the run's writes succeed, the run does not abort: each failed
fan-out task contributes the placeholder `"Error: <message>"` to the join,
the script-writer task runs on exactly the joined outputs, and a script
version is still persisted carrying the successful agents' outputs together
with the placeholders. -/
theorem fanout_failure_degrades_gracefully (env : SwarmEnv) (brief rctx actx ictx : String)
    (vs0 : List ScriptVersion) (now : Nat)
    (hc : ∀ x, env.createExn x = none) (hr : ∀ x, env.runExn x = none)
    (hf : ∀ x, env.failExn x = none)
    (hsw : env.doneExn .script_writer = none) (hfc : env.doneExn .fact_checker = none)
    (hv : env.versionExn = none)
    (hsome : env.doneExn .research_specialist ≠ none ∨ env.doneExn .archive_specialist ≠ none
             ∨ env.doneExn .interview_producer ≠ none)
    (hnotall : env.doneExn .research_specialist = none ∨ env.doneExn .archive_specialist = none
             ∨ env.doneExn .interview_producer = none) :
    ∃ res : FanoutResults,
      (res.research_specialist =
        (match env.doneExn .research_specialist with
         | some e => "Error: " ++ e
         | none => aiText (env.gen .research_specialist)))
      ∧ (res.archive_specialist =
        (match env.doneExn .archive_specialist with
         | some e => "Error: " ++ e
         | none => aiText (env.gen .archive_specialist)))
      ∧ (res.interview_producer =
        (match env.doneExn .interview_producer with
         | some e => "Error: " ++ e
         | none => aiText (env.gen .interview_producer)))
      ∧ (ai_script_swarm env brief rctx actx ictx vs0 now).2
          = .ok { script := aiText (env.gen .script_writer),
                  factCheck := aiText (env.gen .fact_checker),
                  agentOutputs := res }
      ∧ (ai_script_swarm env brief rctx actx ictx vs0 now).1.versions
          = vs0 ++ [{ versionNumber := 1, versionType := "V1_initial",
                      content := aiText (env.gen .script_writer),
                      factCheck := aiText (env.gen .fact_checker),
                      agentOutputs :=
                        { research_specialist := res.research_specialist,
                          archive_specialist := res.archive_specialist,
                          interview_producer := res.interview_producer,
                          script_writer := aiText (env.gen .script_writer),
                          fact_checker := aiText (env.gen .fact_checker) },
                      isLocked := false }]
      ∧ (ai_script_swarm env brief rctx actx ictx vs0 now).1.scriptTask
          = some { agentType := .script_writer, taskType := "generate_script",
                   status := .completed, inputData := .agentInputs res,
                   outputData := some (aiText (env.gen .script_writer)),
                   startedAt := some now, completedAt := some now, error := none } := by
  refine ⟨⟨(match env.doneExn .research_specialist with
       | some e => "Error: " ++ e
       | none => aiText (env.gen .research_specialist)),
      (match env.doneExn .archive_specialist with
       | some e => "Error: " ++ e
       | none => aiText (env.gen .archive_specialist)),
      (match env.doneExn .interview_producer with
       | some e => "Error: " ++ e
       | none => aiText (env.gen .interview_producer))⟩, rfl, rfl, rfl, ?_, ?_, ?_⟩ <;>
  · rcases hd1 : env.doneExn .research_specialist with _ | e1 <;>
    rcases hd2 : env.doneExn .archive_specialist with _ | e2 <;>
    rcases hd3 : env.doneExn .interview_producer with _ | e3 <;>
      simp [ai_script_swarm, runFanoutAgent, hc, hr, hf, hsw, hfc, hv, hd1, hd2, hd3,
        update_agent_task, create_agent_task]

/-- Environment in which only the write marking the research fan-out task
completed raises; every other call succeeds. -/
def envOneFanoutFail : SwarmEnv :=
  { gen := fun _ => .ok "stub",
    createExn := fun _ => none, runExn := fun _ => none,
    doneExn := fun a => if a = .research_specialist then some "boom" else none,
    failExn := fun _ => none, versionExn := none }

/-- Witness for the C6 theorem: with the research fan-out failing, the run
still answers successfully, the join holding the placeholder for the failed
agent and the stub outputs of the other two. -/
theorem fanout_failure_degrades_gracefully_witness :
    (envOneFanoutFail.doneExn .research_specialist ≠ none
      ∨ envOneFanoutFail.doneExn .archive_specialist ≠ none
      ∨ envOneFanoutFail.doneExn .interview_producer ≠ none)
    ∧ (ai_script_swarm envOneFanoutFail "b" "" "" "" [] 0).2
        = .ok { script := "stub", factCheck := "stub",
                agentOutputs := { research_specialist := "Error: boom",
                                  archive_specialist := "stub",
                                  interview_producer := "stub" } } := by
  obtain ⟨res, h1, h2, h3, h4, h5, h6⟩ :=
    fanout_failure_degrades_gracefully envOneFanoutFail "b" "" "" "" [] 0
      (fun _ => rfl) (fun _ => rfl) (fun _ => rfl) (by decide) (by decide) rfl
      (by decide) (by decide)
  refine ⟨by decide, ?_⟩
  rw [h4]
  cases res
  simp_all [envOneFanoutFail, aiText]

/-- C10: `generate_ai_response` never raises — a failing generation call
returns the ordinary string `"AI error: <message>"` — and consequently, in
a pipeline run whose persistence writes all succeed, generation failures
never mark any agent task failed: all five tasks end `completed`, each
storing the (possibly error) response text as its output. -/
theorem generation_failure_never_fails_tasks (env : SwarmEnv) (brief rctx actx ictx : String)
    (vs0 : List ScriptVersion) (now : Nat)
    (hc : ∀ x, env.createExn x = none) (hr : ∀ x, env.runExn x = none)
    (hd : ∀ x, env.doneExn x = none) (hv : env.versionExn = none) :
    (∀ gc prompt sys e,
        gc (if sys = "" then prompt else sys ++ "\n\n" ++ prompt) = .error e →
        generate_ai_response gc prompt sys = "AI error: " ++ e)
    ∧ (ai_script_swarm env brief rctx actx ictx vs0 now).1.researchTask
        = some { agentType := .research_specialist, taskType := "analyze_research",
                 status := .completed, inputData := .fanoutCtx brief (rctx.take 10000),
                 outputData := some (aiText (env.gen .research_specialist)),
                 startedAt := some now, completedAt := some now, error := none }
    ∧ (ai_script_swarm env brief rctx actx ictx vs0 now).1.archiveTask
        = some { agentType := .archive_specialist, taskType := "match_archive",
                 status := .completed, inputData := .fanoutCtx brief (actx.take 10000),
                 outputData := some (aiText (env.gen .archive_specialist)),
                 startedAt := some now, completedAt := some now, error := none }
    ∧ (ai_script_swarm env brief rctx actx ictx vs0 now).1.interviewTask
        = some { agentType := .interview_producer, taskType := "extract_soundbites",
                 status := .completed, inputData := .fanoutCtx brief (ictx.take 10000),
                 outputData := some (aiText (env.gen .interview_producer)),
                 startedAt := some now, completedAt := some now, error := none }
    ∧ (ai_script_swarm env brief rctx actx ictx vs0 now).1.scriptTask
        = some { agentType := .script_writer, taskType := "generate_script",
                 status := .completed,
                 inputData := .agentInputs
                   { research_specialist := aiText (env.gen .research_specialist),
                     archive_specialist := aiText (env.gen .archive_specialist),
                     interview_producer := aiText (env.gen .interview_producer) },
                 outputData := some (aiText (env.gen .script_writer)),
                 startedAt := some now, completedAt := some now, error := none }
    ∧ (ai_script_swarm env brief rctx actx ictx vs0 now).1.factTask
        = some { agentType := .fact_checker, taskType := "verify_script",
                 status := .completed,
                 inputData := .verifyScript (aiText (env.gen .script_writer)),
                 outputData := some (aiText (env.gen .fact_checker)),
                 startedAt := some now, completedAt := some now, error := none }
    ∧ ∃ resp, (ai_script_swarm env brief rctx actx ictx vs0 now).2 = .ok resp := by
  refine ⟨?_, ?_, ?_, ?_, ?_, ?_, ?_⟩
  · intro gc prompt sys e h
    simp [generate_ai_response, h, aiText]
  all_goals
    simp [ai_script_swarm, runFanoutAgent, hc, hr, hd, hv, update_agent_task, create_agent_task]

/-- Environment in which every generation call raises and every persistence
write succeeds. -/
def envGenFail : SwarmEnv :=
  { gen := fun _ => .error "backend down",
    createExn := fun _ => none, runExn := fun _ => none,
    doneExn := fun _ => none, failExn := fun _ => none, versionExn := none }

/-- Witness for the C10 theorem: with the generation backend down, the
research task still ends `completed`, storing the "AI error: …" text as its
output. -/
theorem generation_failure_never_fails_tasks_witness :
    (envGenFail.versionExn = none)
    ∧ (ai_script_swarm envGenFail "b" "" "" "" [] 0).1.researchTask
        = some { agentType := .research_specialist, taskType := "analyze_research",
                 status := .completed,
                 inputData := .fanoutCtx "b" (String.take "" 10000),
                 outputData := some (aiText (envGenFail.gen .research_specialist)),
                 startedAt := some 0, completedAt := some 0, error := none } :=
  ⟨rfl, (generation_failure_never_fails_tasks envGenFail "b" "" "" "" [] 0
      (fun _ => rfl) (fun _ => rfl) (fun _ => rfl) rfl).2.1⟩

end DocApp
